import Mathlib

/-!
Shallow embedding of `esphome/components/pulse_counter_ulp/pulse_counter_ulp_sensor.cpp`.

The source file holds two revisions of the same component. Revision 1 exposes
`UlpProgram::start` / `pop_state` / `peek_state` / `set_mean_exec_time` and a
chrono-based `PulseCounterUlpSensor::update`; revision 2 exposes
`UlpPulseCounterStorage::pulse_counter_setup` / `read_raw_value` and a
millis-based `update` with an optional cumulative total sensor. Revision 2 is
embedded in the `V2` sub-namespace.

Modelling conventions:
- The ULP shared variables (`ulp_edge_count`, ...) are `uint32_t` cells in RTC
  slow memory of which the ULP coprocessor reads only the low 16 bits; they are
  modelled as `Nat` fields reduced `% 2^32` on writes, and the main processor
  casts reads down to `uint16_t` (`% 2^16`) exactly where the source does.
- The companion header is not part of the source file; following the spec, the
  wall clock (`clock::time_point` / `clock::duration`) is modelled at
  microsecond resolution as `Int` (the unit in which the registers and the
  configured sleep duration are expressed), and the drained counters are
  16-bit unsigned values.
- C++ signed integer division truncates toward zero: `Int.tdiv`.
- C++ integer division by zero is undefined behaviour: a tick of revision 1
  that reaches `interval / raw.run_count` with a zero divisor is modelled as
  the faulting outcome `none`.
- The published pulses-per-minute value of revision 1,
  `std::chrono::minutes{1} * float(edge_count) / interval`, is modelled
  exactly in `ℚ` as `60000000 * edge_count / interval_us`.
- Hardware and SDK calls are environment inputs: `ulp_load_binary` and
  `ulp_run` succeed or fail (`load_ok`, `run_ok`), `rtc_gpio_is_valid_gpio`
  answers `pin_valid`, `rtc_io_number_get` answers `rtcio_num`, and the
  wake-cause query answers `wake_from_sleep` (`false` stands for
  `ESP_SLEEP_WAKEUP_UNDEFINED`, i.e. a cold boot).
-/

namespace PulseCounterUlp

/-- The shared ULP register block in RTC slow memory: one `Nat` per `uint32_t`
`ulp_*` variable used by the source. -/
structure UlpRegisters where
  edge_count : Nat
  run_count : Nat
  debounce_counter : Nat
  debounce_max_count : Nat
  next_edge : Nat
  io_number : Nat
  mean_exec_time : Nat
  deriving Repr, DecidableEq

/-- `UlpProgram::State`: the values the main processor reads from the block.
`mean_exec_time` is the microsecond count `microseconds{1} * uint16`. -/
structure State where
  edge_count : Nat
  run_count : Nat
  mean_exec_time : Nat
  deriving Repr, DecidableEq

/-- Configuration of the component (`Config` in the source): GPIO pin number,
debounce threshold, and the ULP wake period `sleep_duration_` in µs. -/
structure Config where
  pin : Nat
  debounce : Nat
  sleep_duration_us : Nat
  deriving Repr, DecidableEq

/-- Environment answers for the hardware/SDK calls made by `UlpProgram::start`. -/
structure StartEnv where
  load_ok : Bool
  run_ok : Bool
  pin_valid : Bool
  rtcio_num : Nat
  deriving Repr, DecidableEq

/-- Result of `UlpProgram::start`: whether a (non-null) program handle was
returned, the register block after the call, and whether the
`GPIO used for pulse counting must be an RTC IO` error was logged. -/
structure StartResult where
  handle : Bool
  regs : UlpRegisters
  logged_invalid_pin : Bool
  deriving Repr, DecidableEq

/-- `UlpProgram::start` (revision 1, lines 31-80): load the binary (fail ⇒
null), check `rtc_gpio_is_valid_gpio` (log only, never fatal), write the
register block, start the program (fail ⇒ null), else return a handle. -/
def UlpProgram.start (env : StartEnv) (config : Config) (regs : UlpRegisters) :
    StartResult :=
  if env.load_ok = false then
    { handle := false, regs := regs, logged_invalid_pin := false }
  else
    let logged := !env.pin_valid
    let written : UlpRegisters :=
      { edge_count := 0
        run_count := 0
        debounce_counter := 3
        debounce_max_count := config.debounce % 4294967296
        next_edge := 0
        io_number := env.rtcio_num % 4294967296
        mean_exec_time := config.sleep_duration_us % 4294967296 }
    if env.run_ok = false then
      { handle := false, regs := written, logged_invalid_pin := logged }
    else
      { handle := true, regs := written, logged_invalid_pin := logged }

/-- `UlpProgram::peek_state` (lines 90-95): non-destructive read, each value
cast down to `uint16_t`. -/
def UlpProgram.peek_state (regs : UlpRegisters) : State :=
  { edge_count := regs.edge_count % 65536
    run_count := regs.run_count % 65536
    mean_exec_time := regs.mean_exec_time % 65536 }

/-- `UlpProgram::pop_state` (lines 82-88): read the state and zero both
`ulp_edge_count` and `ulp_run_count`. -/
def UlpProgram.pop_state (regs : UlpRegisters) : State × UlpRegisters :=
  (UlpProgram.peek_state regs, { regs with edge_count := 0, run_count := 0 })

/-- `UlpProgram::set_mean_exec_time` (lines 97-99): write the µs count of the
duration, cast to `uint16_t` (two's-complement wrap, i.e. `emod 2^16`). -/
def UlpProgram.set_mean_exec_time (regs : UlpRegisters) (mean_exec_time_us : Int) :
    UlpRegisters :=
  { regs with mean_exec_time := (mean_exec_time_us.emod 65536).toNat }

/-- Main-processor-local state of `PulseCounterUlpSensor` (revision 1):
whether `storage_` is a non-null handle, the failed mark, and `last_time_`
in µs. -/
structure SensorState where
  storage : Bool
  failed : Bool
  last_time : Int
  deriving Repr, DecidableEq

/-- `PulseCounterUlpSensor::setup` (revision 1, lines 103-122). Cold boot:
run `UlpProgram::start`; a null result marks the sensor failed. Wake from
sleep: attach without touching the registers and backdate `last_time_` by
`run_count * mean_exec_time`. -/
def PulseCounterUlpSensor.setup (wake_from_sleep : Bool) (env : StartEnv)
    (config : Config) (regs : UlpRegisters) (now : Int) (s : SensorState) :
    SensorState × UlpRegisters :=
  if wake_from_sleep = false then
    let r := UlpProgram.start env config regs
    if r.handle then ({ s with storage := true }, r.regs)
    else ({ s with storage := false, failed := true }, r.regs)
  else
    let st := UlpProgram.peek_state regs
    let elapsed : Int := (st.run_count * st.mean_exec_time : Nat)
    ({ s with storage := true, last_time := now - elapsed }, regs)

/-- `PulseCounterUlpSensor::update` (revision 1, lines 134-150). Early return
when `storage_` is null. Otherwise drain, and when the interval is non-zero
set the mean exec time to `interval / raw.run_count` (the source has no zero
check on `run_count`: a zero divisor is the undefined C++ division, modelled
as `none`) and publish `edge_count` scaled to pulses per minute. The result
carries the new sensor state, the register block, and the published value. -/
def PulseCounterUlpSensor.update (s : SensorState) (regs : UlpRegisters)
    (now : Int) : Option (SensorState × UlpRegisters × Option ℚ) :=
  if s.storage = false then some (s, regs, none)
  else
    let p := UlpProgram.pop_state regs
    let raw := p.1
    let regs1 := p.2
    let interval : Int := now - s.last_time
    if interval = 0 then some ({ s with last_time := now }, regs1, none)
    else if raw.run_count = 0 then none
    else
      let regs2 := UlpProgram.set_mean_exec_time regs1 (interval.tdiv raw.run_count)
      let value : ℚ := (60000000 * raw.edge_count : ℚ) / (interval : ℚ)
      some ({ s with last_time := now }, regs2, some value)

/-- A sequence of update ticks at the given clock readings, collecting the
published rates; a faulting tick faults the whole run. -/
def runUpdates : SensorState → UlpRegisters → List Int →
    Option (SensorState × UlpRegisters × List ℚ)
  | s, regs, [] => some (s, regs, [])
  | s, regs, now :: rest =>
    match PulseCounterUlpSensor.update s regs now with
    | none => none
    | some (s1, regs1, pub) =>
      match runUpdates s1 regs1 rest with
      | none => none
      | some (s2, regs2, pubs) => some (s2, regs2, pub.toList ++ pubs)

namespace V2

/-- `UlpPulseCounterStorage::read_raw_value` (revision 2, lines 247-252):
destructive read of `ulp_edge_count` alone (cast to the 16-bit counter type
per the spec width constraint), which is then zeroed; `ulp_run_count` is not
touched by this revision. -/
def read_raw_value (regs : UlpRegisters) : Nat × UlpRegisters :=
  (regs.edge_count % 65536, { regs with edge_count := 0 })

/-- Main-processor-local state of revision 2 of `PulseCounterUlpSensor`:
`last_time_` in ms (a `0` means no previous tick yet), the `uint32_t`
cumulative total, and whether a total sensor is configured
(`total_sensor_ != nullptr`). -/
structure Sensor where
  last_time : Nat
  current_total : Nat
  total_configured : Bool
  deriving Repr, DecidableEq

/-- `PulseCounterUlpSensor::update` (revision 2, lines 277-295): drain the
edge count, publish a rate when `last_time_ != 0` (the float value itself is
not modelled; only the fact of publication), add the drained count to
`current_total_` and publish it when a total sensor is configured, and set
`last_time_ = now`. Result: new state, registers, whether a rate was
published, and the published total if any. -/
def update (s : Sensor) (regs : UlpRegisters) (now : Nat) :
    Sensor × UlpRegisters × Bool × Option Nat :=
  let p := read_raw_value regs
  let raw := p.1
  let regs1 := p.2
  let ratePublished := decide (s.last_time ≠ 0)
  if s.total_configured then
    let t := (s.current_total + raw) % 4294967296
    ({ last_time := now, current_total := t, total_configured := s.total_configured },
      regs1, ratePublished, some t)
  else
    ({ s with last_time := now }, regs1, ratePublished, none)

/-- A sequence of revision-2 ticks: before each tick the ULP adds `inj` edges
to `ulp_edge_count` (wrapping at 2^32), then `update` runs at time `now`.
Collects the published totals. -/
def runTicks : Sensor → UlpRegisters → List (Nat × Nat) → List Nat
  | _, _, [] => []
  | s, regs, (inj, now) :: rest =>
    let regs0 := { regs with edge_count := (regs.edge_count + inj) % 4294967296 }
    let r := update s regs0 now
    r.2.2.2.toList ++ runTicks r.1 r.2.1 rest

end V2

/-! ## Helper lemmas -/

/-- A handle is produced exactly when both the binary load and the program
start succeed. -/
theorem start_handle_eq (env : StartEnv) (config : Config) (regs : UlpRegisters) :
    (UlpProgram.start env config regs).handle = (env.load_ok && env.run_ok) := by
  cases hl : env.load_ok <;> cases hr : env.run_ok <;>
    simp [UlpProgram.start, hl, hr]

/-- A tick with a null `storage_` returns immediately: state and registers
untouched, nothing published, no fault. -/
theorem update_no_storage (s : SensorState) (regs : UlpRegisters) (now : Int)
    (h : s.storage = false) :
    PulseCounterUlpSensor.update s regs now = some (s, regs, none) := by
  simp [PulseCounterUlpSensor.update, h]

/-- Any sequence of ticks with a null `storage_` publishes nothing and leaves
everything untouched. -/
theorem runUpdates_no_storage (s : SensorState) (regs : UlpRegisters)
    (ticks : List Int) (h : s.storage = false) :
    runUpdates s regs ticks = some (s, regs, []) := by
  induction ticks with
  | nil => rfl
  | cons t rest ih => simp [runUpdates, update_no_storage s regs t h, ih]

/-! ## Claim theorems -/

/-- C1: the source (revision 1, line 143) sets the mean-exec-time estimate to
`interval / raw.run_count` with no zero guard on the drained run count: at a
non-zero interval of 5 µs and a drained run count of 0, the tick reaches the
undefined C++ integer division by zero (modelled as the faulting outcome
`none`) instead of leaving the estimate unchanged as the claim states. -/
theorem c1_unguarded_division_fault :
    PulseCounterUlpSensor.update ⟨true, false, 0⟩ ⟨3, 0, 3, 3, 0, 5, 20000⟩ 5 =
      none := by
  decide

/-- C2 (counterexample): with a pin that is not RTC-capable
(`pin_valid = false`) but the binary load and the program start succeeding,
`UlpProgram::start` logs the error yet still returns a handle, having
configured the register block (the RTC IO index was written): the invalid
pin is not treated as fatal. -/
theorem c2_counterexample :
    (UlpProgram.start ⟨true, true, false, 7⟩ ⟨4, 2, 20000⟩
        ⟨0, 0, 0, 0, 0, 0, 0⟩).handle = true ∧
    (UlpProgram.start ⟨true, true, false, 7⟩ ⟨4, 2, 20000⟩
        ⟨0, 0, 0, 0, 0, 0, 0⟩).logged_invalid_pin = true ∧
    (UlpProgram.start ⟨true, true, false, 7⟩ ⟨4, 2, 20000⟩
        ⟨0, 0, 0, 0, 0, 0, 0⟩).regs.io_number = 7 := by
  decide

/-- C2 (amended): when the binary load succeeds, `UlpProgram::start` checks
`rtc_gpio_is_valid_gpio` and logs an error exactly when the pin is not
RTC-capable, but the check is not fatal: whether a handle is produced depends
only on the program start succeeding, never on pin validity. -/
theorem c2_invalid_pin_logged_not_fatal (env : StartEnv) (config : Config)
    (regs : UlpRegisters) (h : env.load_ok = true) :
    (UlpProgram.start env config regs).logged_invalid_pin = !env.pin_valid ∧
    (UlpProgram.start env config regs).handle = env.run_ok := by
  cases hr : env.run_ok <;> simp [UlpProgram.start, h, hr]

/-- C2 (witness for the amended claim at a concrete input). -/
theorem c2_witness :
    (UlpProgram.start ⟨true, true, false, 7⟩ ⟨4, 2, 20000⟩
        ⟨0, 0, 0, 0, 0, 0, 0⟩).logged_invalid_pin = !false ∧
    (UlpProgram.start ⟨true, true, false, 7⟩ ⟨4, 2, 20000⟩
        ⟨0, 0, 0, 0, 0, 0, 0⟩).handle = true :=
  c2_invalid_pin_logged_not_fatal ⟨true, true, false, 7⟩ ⟨4, 2, 20000⟩
    ⟨0, 0, 0, 0, 0, 0, 0⟩ rfl

/-- C3: `UlpProgram::pop_state` returns the peeked state while zeroing
`ulp_edge_count` and `ulp_run_count` in the same operation, and it is
idempotent with respect to register state: a second drain with no
intervening ULP activity reads (0, 0). -/
theorem c3_drain_together_idempotent (regs : UlpRegisters) :
    UlpProgram.pop_state regs =
      (UlpProgram.peek_state regs, { regs with edge_count := 0, run_count := 0 }) ∧
    (UlpProgram.pop_state (UlpProgram.pop_state regs).2).1.edge_count = 0 ∧
    (UlpProgram.pop_state (UlpProgram.pop_state regs).2).1.run_count = 0 := by
  refine ⟨rfl, ?_, ?_⟩ <;> simp [UlpProgram.pop_state, UlpProgram.peek_state]

/-- C4: in revision 2 every tick adds the drained edge count to
`current_total_` and publishes the new total whenever a total sensor is
configured; over three ticks draining 10, 15 and 7 edges the published total
sequence is 10, 25, 32. -/
theorem c4_total_accumulation :
    (∀ (s : V2.Sensor) (regs : UlpRegisters) (now : Nat),
        s.total_configured = true →
        (V2.update s regs now).2.2.2 =
          some ((s.current_total + regs.edge_count % 65536) % 4294967296) ∧
        (V2.update s regs now).1.current_total =
          (s.current_total + regs.edge_count % 65536) % 4294967296) ∧
    V2.runTicks ⟨0, 0, true⟩ ⟨0, 0, 0, 0, 0, 0, 0⟩
        [(10, 100), (15, 200), (7, 300)] = [10, 25, 32] := by
  constructor
  · intro s regs now h
    constructor <;> simp [V2.update, V2.read_raw_value, h]
  · decide

/-- C4 (witness): the general part applied at the first tick of the
concrete scenario: total 0 plus 10 drained edges publishes total 10. -/
theorem c4_witness :
    (V2.update ⟨0, 0, true⟩ ⟨10, 0, 0, 0, 0, 0, 0⟩ 100).2.2.2 =
      some ((0 + 10 % 65536) % 4294967296) ∧
    (V2.update ⟨0, 0, true⟩ ⟨10, 0, 0, 0, 0, 0, 0⟩ 100).1.current_total =
      (0 + 10 % 65536) % 4294967296 :=
  c4_total_accumulation.1 ⟨0, 0, true⟩ ⟨10, 0, 0, 0, 0, 0, 0⟩ 100 rfl

/-- C5: when the cold-boot ULP start fails (binary load failure or loop start
failure), `setup` marks the sensor failed with a null `storage_`, and every
subsequent sequence of ticks is a no-op: the registers are never accessed
(they come back unchanged), no value is published, and no fault occurs. -/
theorem c5_failed_start_terminal (env : StartEnv) (config : Config)
    (regs : UlpRegisters) (now : Int) (s : SensorState) (ticks : List Int)
    (h : env.load_ok = false ∨ env.run_ok = false) :
    (PulseCounterUlpSensor.setup false env config regs now s).1.failed = true ∧
    (PulseCounterUlpSensor.setup false env config regs now s).1.storage = false ∧
    runUpdates (PulseCounterUlpSensor.setup false env config regs now s).1
        (PulseCounterUlpSensor.setup false env config regs now s).2 ticks =
      some ((PulseCounterUlpSensor.setup false env config regs now s).1,
        (PulseCounterUlpSensor.setup false env config regs now s).2, []) := by
  have hh : (UlpProgram.start env config regs).handle = false := by
    rw [start_handle_eq]
    rcases h with h | h <;> simp [h]
  have hsetup : PulseCounterUlpSensor.setup false env config regs now s =
      ({ s with storage := false, failed := true },
        (UlpProgram.start env config regs).regs) := by
    simp [PulseCounterUlpSensor.setup, hh]
  rw [hsetup]
  exact ⟨rfl, rfl, runUpdates_no_storage _ _ ticks rfl⟩

/-- C5 (witness): a concrete failed load on a cold boot. -/
theorem c5_witness :
    (PulseCounterUlpSensor.setup false ⟨false, true, true, 7⟩ ⟨4, 2, 20000⟩
        ⟨0, 0, 0, 0, 0, 0, 0⟩ 0 ⟨false, false, 0⟩).1.failed = true ∧
    (PulseCounterUlpSensor.setup false ⟨false, true, true, 7⟩ ⟨4, 2, 20000⟩
        ⟨0, 0, 0, 0, 0, 0, 0⟩ 0 ⟨false, false, 0⟩).1.storage = false ∧
    runUpdates (PulseCounterUlpSensor.setup false ⟨false, true, true, 7⟩ ⟨4, 2, 20000⟩
        ⟨0, 0, 0, 0, 0, 0, 0⟩ 0 ⟨false, false, 0⟩).1
        (PulseCounterUlpSensor.setup false ⟨false, true, true, 7⟩ ⟨4, 2, 20000⟩
          ⟨0, 0, 0, 0, 0, 0, 0⟩ 0 ⟨false, false, 0⟩).2 [1, 2, 3] =
      some ((PulseCounterUlpSensor.setup false ⟨false, true, true, 7⟩ ⟨4, 2, 20000⟩
          ⟨0, 0, 0, 0, 0, 0, 0⟩ 0 ⟨false, false, 0⟩).1,
        (PulseCounterUlpSensor.setup false ⟨false, true, true, 7⟩ ⟨4, 2, 20000⟩
          ⟨0, 0, 0, 0, 0, 0, 0⟩ 0 ⟨false, false, 0⟩).2, []) :=
  c5_failed_start_terminal ⟨false, true, true, 7⟩ ⟨4, 2, 20000⟩ ⟨0, 0, 0, 0, 0, 0, 0⟩
    0 ⟨false, false, 0⟩ [1, 2, 3] (Or.inl rfl)

/-- C6: `UlpProgram::start` produces no program handle exactly when the
binary load fails or the ULP loop fails to start. -/
theorem c6_start_failure_iff (env : StartEnv) (config : Config)
    (regs : UlpRegisters) :
    (UlpProgram.start env config regs).handle = false ↔
      env.load_ok = false ∨ env.run_ok = false := by
  rw [start_handle_eq]
  cases hl : env.load_ok <;> cases hr : env.run_ok <;> simp

/-- C7: on a wake-from-sleep boot `setup` leaves the registers untouched (no
re-initialization) and sets `last_time = now - run_count * mean_exec_time` as
read (low 16 bits) from the registers; in particular, for `run_count = 50`
and `mean_exec_time = 20000 µs` (20 ms) at `now = 2000000 µs`, the
reconstructed value is `now - 1000000 µs`, i.e. `now - 1000 ms`. -/
theorem c7_wake_reconstruction :
    (∀ (env : StartEnv) (config : Config) (regs : UlpRegisters) (now : Int)
        (s : SensorState),
        (PulseCounterUlpSensor.setup true env config regs now s).2 = regs ∧
        (PulseCounterUlpSensor.setup true env config regs now s).1.storage = true ∧
        (PulseCounterUlpSensor.setup true env config regs now s).1.failed = s.failed ∧
        (PulseCounterUlpSensor.setup true env config regs now s).1.last_time =
          now - ((regs.run_count % 65536) * (regs.mean_exec_time % 65536) : Nat)) ∧
    (PulseCounterUlpSensor.setup true ⟨true, true, true, 0⟩ ⟨0, 0, 20000⟩
        ⟨0, 50, 3, 3, 0, 0, 20000⟩ 2000000 ⟨false, false, 0⟩).1.last_time =
      2000000 - 1000000 := by
  constructor
  · intro env config regs now s
    exact ⟨rfl, rfl, rfl, rfl⟩
  · decide

/-- C8 (counterexample): a tick with a non-zero interval (60 s) but a drained
run count of 0 does not publish a rate: it reaches the unguarded division by
zero (modelled as the faulting outcome `none`), refuting the claim that every
non-zero-interval tick publishes. -/
theorem c8_counterexample :
    (60000000 : Int) - (0 : Int) ≠ 0 ∧
    PulseCounterUlpSensor.update ⟨true, false, 0⟩ ⟨120, 0, 3, 3, 0, 5, 20000⟩
      60000000 = none := by
  decide

/-- C8 (amended): with a live program handle, a tick whose interval and
drained run count are both non-zero publishes
`rate = 60000000 * edge_count / interval` pulses per minute (exactly 120 for
120 edges over 60 s: see the witness), and a tick with interval zero
publishes nothing and performs no division; the amendment adds the non-zero
drained run count, without which the unguarded division faults. -/
theorem c8_rate_publication (s : SensorState) (regs : UlpRegisters) (now : Int)
    (hs : s.storage = true) :
    (now - s.last_time ≠ 0 → regs.run_count % 65536 ≠ 0 →
      PulseCounterUlpSensor.update s regs now =
        some ({ s with last_time := now },
          UlpProgram.set_mean_exec_time { regs with edge_count := 0, run_count := 0 }
            ((now - s.last_time).tdiv ((regs.run_count % 65536 : Nat) : Int)),
          some ((60000000 * ((regs.edge_count % 65536 : Nat) : ℚ)) /
            ((now - s.last_time : Int) : ℚ)))) ∧
    (now - s.last_time = 0 →
      PulseCounterUlpSensor.update s regs now =
        some ({ s with last_time := now },
          { regs with edge_count := 0, run_count := 0 }, none)) := by
  constructor
  · intro hi hr
    simp only [PulseCounterUlpSensor.update, UlpProgram.pop_state, UlpProgram.peek_state,
      hs, Bool.true_eq_false, if_false, if_neg hi, if_neg hr]
  · intro hi
    simp only [PulseCounterUlpSensor.update, UlpProgram.pop_state, UlpProgram.peek_state,
      hs, Bool.true_eq_false, if_false, if_pos hi]

/-- C8 (witness): 120 drained edges over a 60 s interval with drained run
count 10 publish exactly 120 pulses per minute. -/
theorem c8_witness :
    PulseCounterUlpSensor.update ⟨true, false, 0⟩ ⟨120, 10, 3, 3, 0, 5, 20000⟩
      60000000 =
      some (⟨true, false, 60000000⟩, ⟨0, 0, 3, 3, 0, 5, 36224⟩, some (120 : ℚ)) := by
  have h := (c8_rate_publication ⟨true, false, 0⟩ ⟨120, 10, 3, 3, 0, 5, 20000⟩
    60000000 rfl).1 (by decide) (by decide)
  rw [h]
  simp only [UlpProgram.set_mean_exec_time]
  norm_num
  decide

/-- C9: every main-processor read in `peek_state` casts the shared registers
down to their low 16 bits, and `set_mean_exec_time` truncates any written
duration (its µs count, of either sign) to 16 bits, which is also what a
subsequent read sees. -/
theorem c9_registers_16_bit (regs : UlpRegisters) (d : Int) :
    (UlpProgram.peek_state regs).edge_count = regs.edge_count % 65536 ∧
    (UlpProgram.peek_state regs).run_count = regs.run_count % 65536 ∧
    (UlpProgram.peek_state regs).mean_exec_time = regs.mean_exec_time % 65536 ∧
    (UlpProgram.set_mean_exec_time regs d).mean_exec_time = (d.emod 65536).toNat ∧
    (UlpProgram.peek_state (UlpProgram.set_mean_exec_time regs d)).mean_exec_time =
      (d.emod 65536).toNat := by
  refine ⟨rfl, rfl, rfl, rfl, ?_⟩
  have h1 : d.emod 65536 < 65536 := Int.emod_lt_of_pos d (by decide)
  have h0 : 0 ≤ d.emod 65536 := Int.emod_nonneg d (by decide)
  simp only [UlpProgram.peek_state, UlpProgram.set_mean_exec_time]
  omega

/-- C10: a successful cold start writes the configured wake period
(`sleep_duration_` in µs) into `ulp_mean_exec_time`, so a warm resume that
happens before any drain (after the ULP has bumped `run_count` to `r` and
`edge_count` to `e`) backdates `last_time` using the wake period as the
per-iteration estimate. -/
theorem c10_cold_start_seeds_mean_exec (env : StartEnv) (config : Config)
    (regs : UlpRegisters) (r e : Nat) (now : Int) (s : SensorState)
    (h : (UlpProgram.start env config regs).handle = true) :
    (UlpProgram.start env config regs).regs.mean_exec_time =
      config.sleep_duration_us % 4294967296 ∧
    (PulseCounterUlpSensor.setup true env config
        { (UlpProgram.start env config regs).regs with
            run_count := r, edge_count := e } now s).1.last_time =
      now - ((r % 65536) * (config.sleep_duration_us % 65536) : Nat) := by
  rw [start_handle_eq, Bool.and_eq_true] at h
  have hl : env.load_ok = true := h.1
  have hr : env.run_ok = true := h.2
  have hstart : (UlpProgram.start env config regs).regs.mean_exec_time =
      config.sleep_duration_us % 4294967296 := by
    simp [UlpProgram.start, hl, hr]
  refine ⟨hstart, ?_⟩
  have hsetup : (PulseCounterUlpSensor.setup true env config
      { (UlpProgram.start env config regs).regs with
          run_count := r, edge_count := e } now s).1.last_time =
      now - ((r % 65536) *
        ((UlpProgram.start env config regs).regs.mean_exec_time % 65536) : Nat) := rfl
  rw [hsetup, hstart, Nat.mod_mod_of_dvd _ (by norm_num : (65536 : Nat) ∣ 4294967296)]

/-- C10 (witness): a concrete successful cold start with wake period 20000 µs
followed by a warm resume after 50 ULP iterations. -/
theorem c10_witness :
    (UlpProgram.start ⟨true, true, true, 7⟩ ⟨4, 2, 20000⟩
        ⟨0, 0, 0, 0, 0, 0, 0⟩).regs.mean_exec_time = 20000 % 4294967296 ∧
    (PulseCounterUlpSensor.setup true ⟨true, true, true, 7⟩ ⟨4, 2, 20000⟩
        { (UlpProgram.start ⟨true, true, true, 7⟩ ⟨4, 2, 20000⟩
            ⟨0, 0, 0, 0, 0, 0, 0⟩).regs with
            run_count := 50, edge_count := 0 } 2000000
        ⟨false, false, 0⟩).1.last_time =
      2000000 - ((50 % 65536) * (20000 % 65536) : Nat) :=
  c10_cold_start_seeds_mean_exec ⟨true, true, true, 7⟩ ⟨4, 2, 20000⟩
    ⟨0, 0, 0, 0, 0, 0, 0⟩ 50 0 2000000 ⟨false, false, 0⟩ rfl

end PulseCounterUlp
